import Mathlib

/-!
# The job API server of `src/pps/jobserver/api_server.go`

A shallow embedding of the four request handlers of `apiServer`
(`CreateJob`, `InspectJob`, `ListJob`, `GetJobLogs`) and of the view assembly
`persistJobInfoToJobInfo`, followed by the properties proved about them.

Conventions of the embedding.

* A Go pointer `*X` that the code stores, copies or compares with `nil` is an
  `Option X` (`none` is `nil`).  A pointer the code dereferences without a test
  (the request of a handler, the record handed to the assembly, the elements of
  a listing) is taken to be non-nil and is a plain `X`.
* A Go result pair `(x, err)` of which exactly one half is meaningful is an
  `Except`; a lone `error` result is an `Option` (`none` is `nil`).
* The two collaborators (launcher and persistence service) and the response
  stream are stateful and arbitrary: every call takes the current state of the
  outside world and returns the next one.
* Message payloads that the handlers only copy are type parameters:
  `C` (`pfs.Commit`), `T` (`pps.Transform`), `TS` (`google_protobuf.Timestamp`),
  `ST` (the job status type enum), `S` (`pps.OutputStream`),
  `F` (`pps.ListJobRequest`), `X` (error values made outside this file).
* The message types of the packages `pps`, `persist` and `google_protobuf` are
  generated code outside the sources; each structure below lists the fields the
  handlers read or write, under the names the handlers use (`Type_` for `Type`).
* The deferred `a.Log(...)` of the handlers only reports the call and is left out;
  the `ctx` argument is only passed on and is left out as well.
* To count the calls a collaborator receives, a handler is run on the server
  `a.recording`, whose collaborators answer as those of `a` and append every call
  to a list; running on `a.recording` changes neither results nor the outside
  world (`CreateJob_recording_result`, `GetJobLogs_recording_result`).
-/

/-- Go `error` values: those built by `fmt.Errorf(format, a)` in this file, and
those produced elsewhere. -/
inductive Error (R X : Type) where
  | Errorf (format : String) (a : R)
  | external (e : X)
deriving DecidableEq, Repr

namespace pps

/-- Message `pps.Pipeline`; the code reads and writes its `Name`. -/
structure Pipeline where
  Name : String
deriving DecidableEq, Repr

/-- Message `pps.Job`; the code reads and writes its `Id`. -/
structure Job where
  Id : String
deriving DecidableEq, Repr

/-- Modelled from the spec: the declaration of message `pps.CreateJobRequest` is
not part of the sources.  The handler reads the fields `Input` and
`OutputParent` and the accessors `GetTransform()` and `GetPipeline()`; the
request is represented by what these four return, and nothing is assumed about
how the two accessors relate.  A request is valid when exactly one of the two
is set. -/
structure CreateJobRequest (C T : Type) where
  GetTransform : Option T
  GetPipeline : Option Pipeline
  Input : Option C
  OutputParent : Option C
deriving DecidableEq, Repr

/-- The `Spec` oneof of the view `pps.JobInfo`: the two wrappers the code
builds, `&pps.JobInfo_Transform{Transform: ..}` and
`&pps.JobInfo_Pipeline{Pipeline: ..}`. -/
inductive isJobInfo_Spec (T : Type) where
  | JobInfo_Transform (Transform : Option T)
  | JobInfo_Pipeline (Pipeline : Option Pipeline)
deriving DecidableEq, Repr

/-- Message `pps.JobStatus` with the three fields the code fills. -/
structure JobStatus (ST TS : Type) where
  Type_ : ST
  Timestamp : Option TS
  Message : String
deriving DecidableEq, Repr

/-- Message `pps.JobInfo`, the assembled view, with the fields the code fills.
`JobStatus` is a slice of pointers. -/
structure JobInfo (C T TS ST : Type) where
  Job : Option Job
  Input : Option C
  Spec : Option (isJobInfo_Spec T)
  JobStatus : List (Option (JobStatus ST TS))
  Output : Option C
deriving DecidableEq, Repr

/-- Message `pps.JobInfos`. -/
structure JobInfos (C T TS ST : Type) where
  JobInfo : List (Option (JobInfo C T TS ST))
deriving DecidableEq, Repr

/-- Message `pps.GetJobLogsRequest`. -/
structure GetJobLogsRequest (S : Type) where
  Job : Option Job
  OutputStream : S
deriving DecidableEq, Repr

end pps

namespace google_protobuf

/-- Message `google_protobuf.BytesValue`. -/
structure BytesValue where
  Value : List UInt8
deriving DecidableEq, Repr

end google_protobuf

namespace persist

/-- The `Spec` oneof of the stored record `persist.JobInfo`: the two wrappers
the code builds, `&persist.JobInfo_Transform{Transform: ..}` and
`&persist.JobInfo_PipelineName{PipelineName: ..}`. -/
inductive isJobInfo_Spec (T : Type) where
  | JobInfo_Transform (Transform : Option T)
  | JobInfo_PipelineName (PipelineName : String)
deriving DecidableEq, Repr

/-- Message `persist.JobInfo`, the stored record, with the fields the code
reads and writes. -/
structure JobInfo (C T TS : Type) where
  JobId : String
  Input : Option C
  OutputParent : Option C
  Spec : Option (isJobInfo_Spec T)
  CreatedAt : Option TS
deriving DecidableEq, Repr

/-- Modelled from the spec: the generated accessor `GetTransform()` of
`persist.JobInfo` is not part of the sources.  It is the accessor of a oneof
case: the wrapped value when the record holds the Transform case, `nil`
otherwise. -/
def JobInfo.GetTransform {C T TS : Type} (m : JobInfo C T TS) : Option T :=
  match m.Spec with
  | some (isJobInfo_Spec.JobInfo_Transform x) => x
  | _ => none

/-- Modelled from the spec: the generated accessor `GetPipelineName()` of
`persist.JobInfo` is not part of the sources.  It is the accessor of a oneof
case: the wrapped string when the record holds the PipelineName case, the empty
string otherwise. -/
def JobInfo.GetPipelineName {C T TS : Type} (m : JobInfo C T TS) : String :=
  match m.Spec with
  | some (isJobInfo_Spec.JobInfo_PipelineName x) => x
  | _ => ""

/-- Message `persist.JobInfos`; the elements are dereferenced by the code. -/
structure JobInfos (C T TS : Type) where
  JobInfo : List (JobInfo C T TS)
deriving DecidableEq, Repr

/-- Message `persist.JobStatus` with the three fields the code reads. -/
structure JobStatus (ST TS : Type) where
  Type_ : ST
  Timestamp : Option TS
  Message : String
deriving DecidableEq, Repr

/-- Message `persist.JobStatuses`; the elements are dereferenced by the code. -/
structure JobStatuses (ST TS : Type) where
  JobStatus : List (JobStatus ST TS)
deriving DecidableEq, Repr

/-- Message `persist.JobOutput`. -/
structure JobOutput (C : Type) where
  Output : Option C
deriving DecidableEq, Repr

/-- Message `persist.JobLog`. -/
structure JobLog (S : Type) where
  OutputStream : S
  Value : List UInt8
deriving DecidableEq, Repr

/-- Message `persist.JobLogs`; the elements are dereferenced by the code. -/
structure JobLogs (S : Type) where
  JobLog : List (JobLog S)
deriving DecidableEq, Repr

end persist

/-- The error type of the handlers: `fmt.Errorf` is applied to a creation
request only. -/
abbrev Err (X C T : Type) : Type := Error (pps.CreateJobRequest C T) X

namespace persist

/-- The persistence service, `persist.APIClient`: the six calls the handlers
make, each a transition of the outside world `W`.  The response of
`CreateJobInfo` is discarded by the code; only its error is kept. -/
structure APIClient (W X C T TS ST S F : Type) where
  CreateJobInfo : JobInfo C T TS → W → Option (Err X C T) × W
  GetJobInfo : Option pps.Job → W → Except (Err X C T) (JobInfo C T TS) × W
  ListJobInfos : F → W → Except (Err X C T) (JobInfos C T TS) × W
  GetJobStatuses : Option pps.Job → W → Except (Err X C T) (JobStatuses ST TS) × W
  GetJobOutput : Option pps.Job → W → Except (Err X C T) (Option (JobOutput C)) × W
  GetJobLogs : Option pps.Job → W → Except (Err X C T) (JobLogs S) × W

end persist

namespace pps

/-- The response stream `pps.JobAPI_GetJobLogsServer`: its `Send`. -/
structure JobAPI_GetJobLogsServer (W X C T : Type) where
  Send : google_protobuf.BytesValue → W → Option (Err X C T) × W

end pps

namespace jobserver

variable {W X C T TS ST S F : Type}

/-- The server `apiServer`.  `StartJob` stands for the launcher call
`jobserverrun.StartJob(a.client, ·)`. -/
structure apiServer (W X C T TS ST S F : Type) where
  persistAPIClient : persist.APIClient W X C T TS ST S F
  StartJob : persist.JobInfo C T TS → W → Option (Err X C T) × W

/-- Handler `CreateJob` (lines 35-64).  `newId` is the value of
`uuid.NewWithoutDashes()` and `now` that of
`prototime.TimeToTimestamp(time.Now())`. -/
def apiServer.CreateJob (a : apiServer W X C T TS ST S F) (newId : String) (now : TS)
    (request : pps.CreateJobRequest C T) (w : W) : Except (Err X C T) pps.Job × W :=
  let persistJobInfo : persist.JobInfo C T TS :=
    { JobId := "", Input := request.Input, OutputParent := request.OutputParent,
      Spec := none, CreatedAt := none }
  let withSpec : Except (Err X C T) (persist.JobInfo C T TS) :=
    if request.GetTransform.isSome then
      Except.ok { persistJobInfo with
        Spec := some (persist.isJobInfo_Spec.JobInfo_Transform request.GetTransform) }
    else
      match request.GetPipeline with
      | some pipeline =>
        Except.ok { persistJobInfo with
          Spec := some (persist.isJobInfo_Spec.JobInfo_PipelineName pipeline.Name) }
      | none =>
        Except.error (Error.Errorf
          "pachyderm.pps.jobserver: both transform and pipeline are not set on %v" request)
  match withSpec with
  | Except.error err => (Except.error err, w)
  | Except.ok persistJobInfo =>
    let persistJobInfo := { persistJobInfo with JobId := newId }
    let persistJobInfo := { persistJobInfo with CreatedAt := some now }
    match a.StartJob persistJobInfo w with
    | (some err, w) => (Except.error err, w)
    | (none, w) =>
      match a.persistAPIClient.CreateJobInfo persistJobInfo w with
      | (some err, w) => (Except.error err, w)
      | (none, w) => (Except.ok { Id := persistJobInfo.JobId }, w)

/-- The loop of lines 139-145:
`for i, persistJobStatus := range .. { jobInfo.JobStatus[i] = &pps.JobStatus{..} }`,
started at index `i` on the slice `jobStatus`. -/
def copyJobStatuses : List (persist.JobStatus ST TS) → Nat →
    List (Option (pps.JobStatus ST TS)) → List (Option (pps.JobStatus ST TS))
  | [], _, jobStatus => jobStatus
  | persistJobStatus :: rest, i, jobStatus =>
    copyJobStatuses rest (i + 1)
      (jobStatus.set i (some
        { Type_ := persistJobStatus.Type_,
          Timestamp := persistJobStatus.Timestamp,
          Message := persistJobStatus.Message }))

/-- The view assembly `persistJobInfoToJobInfo` (lines 112-150).
`List.replicate n none` is `make([]*pps.JobStatus, n)`. -/
def apiServer.persistJobInfoToJobInfo (a : apiServer W X C T TS ST S F)
    (persistJobInfo : persist.JobInfo C T TS) (w : W) :
    Except (Err X C T) (pps.JobInfo C T TS ST) × W :=
  let job : pps.Job := { Id := persistJobInfo.JobId }
  match a.persistAPIClient.GetJobStatuses (some job) w with
  | (Except.error err, w) => (Except.error err, w)
  | (Except.ok persistJobStatuses, w) =>
    match a.persistAPIClient.GetJobOutput (some job) w with
    | (Except.error err, w) => (Except.error err, w)
    | (Except.ok persistJobOutput, w) =>
      let jobInfo : pps.JobInfo C T TS ST :=
        { Job := some job, Input := persistJobInfo.Input,
          Spec := none, JobStatus := [], Output := none }
      let jobInfo :=
        if persistJobInfo.GetTransform.isSome then
          { jobInfo with
            Spec := some (pps.isJobInfo_Spec.JobInfo_Transform persistJobInfo.GetTransform) }
        else jobInfo
      let jobInfo :=
        if persistJobInfo.GetPipelineName ≠ "" then
          { jobInfo with
            Spec := some (pps.isJobInfo_Spec.JobInfo_Pipeline
              (some { Name := persistJobInfo.GetPipelineName })) }
        else jobInfo
      let jobInfo := { jobInfo with
        JobStatus := List.replicate persistJobStatuses.JobStatus.length none }
      let jobInfo := { jobInfo with
        JobStatus := copyJobStatuses persistJobStatuses.JobStatus 0 jobInfo.JobStatus }
      let jobInfo :=
        match persistJobOutput with
        | some output => { jobInfo with Output := output.Output }
        | none => jobInfo
      (Except.ok jobInfo, w)

/-- The loop of lines 83-89 of `ListJob`, started at index `i` on the slice
`jobInfos`; a failing assembly leaves the handler with its error. -/
def apiServer.listJobLoop (a : apiServer W X C T TS ST S F) :
    List (persist.JobInfo C T TS) → Nat → List (Option (pps.JobInfo C T TS ST)) → W →
    Except (Err X C T) (List (Option (pps.JobInfo C T TS ST))) × W
  | [], _, jobInfos, w => (Except.ok jobInfos, w)
  | persistJobInfo :: rest, i, jobInfos, w =>
    match a.persistJobInfoToJobInfo persistJobInfo w with
    | (Except.error err, w) => (Except.error err, w)
    | (Except.ok jobInfo, w) => a.listJobLoop rest (i + 1) (jobInfos.set i (some jobInfo)) w

/-- Handler `ListJob` (lines 75-93).  `List.replicate n none` is
`make([]*pps.JobInfo, n)`. -/
def apiServer.ListJob (a : apiServer W X C T TS ST S F) (request : F) (w : W) :
    Except (Err X C T) (pps.JobInfos C T TS ST) × W :=
  match a.persistAPIClient.ListJobInfos request w with
  | (Except.error err, w) => (Except.error err, w)
  | (Except.ok persistJobInfos, w) =>
    let jobInfos : List (Option (pps.JobInfo C T TS ST)) :=
      List.replicate persistJobInfos.JobInfo.length none
    match a.listJobLoop persistJobInfos.JobInfo 0 jobInfos w with
    | (Except.error err, w) => (Except.error err, w)
    | (Except.ok jobInfos, w) => (Except.ok { JobInfo := jobInfos }, w)

/-- The loop of lines 101-107 of `GetJobLogs`.  `OUTPUT_STREAM_ALL` is the
constant `pps.OutputStream_OUTPUT_STREAM_ALL`, declared outside the sources. -/
def getJobLogsLoop [DecidableEq S] (OUTPUT_STREAM_ALL : S) (request : pps.GetJobLogsRequest S)
    (responseServer : pps.JobAPI_GetJobLogsServer W X C T) :
    List (persist.JobLog S) → W → Option (Err X C T) × W
  | [], w => (none, w)
  | persistJobLog :: rest, w =>
    if request.OutputStream = OUTPUT_STREAM_ALL ∨
        persistJobLog.OutputStream = request.OutputStream then
      match responseServer.Send { Value := persistJobLog.Value } w with
      | (some err, w) => (some err, w)
      | (none, w) => getJobLogsLoop OUTPUT_STREAM_ALL request responseServer rest w
    else getJobLogsLoop OUTPUT_STREAM_ALL request responseServer rest w

/-- Handler `GetJobLogs` (lines 95-109). -/
def apiServer.GetJobLogs [DecidableEq S] (a : apiServer W X C T TS ST S F)
    (OUTPUT_STREAM_ALL : S) (request : pps.GetJobLogsRequest S)
    (responseServer : pps.JobAPI_GetJobLogsServer W X C T) (w : W) :
    Option (Err X C T) × W :=
  match a.persistAPIClient.GetJobLogs request.Job w with
  | (Except.error err, w) => (some err, w)
  | (Except.ok persistJobLogs, w) =>
    getJobLogsLoop OUTPUT_STREAM_ALL request responseServer persistJobLogs.JobLog w

end jobserver

namespace jobserver

variable {W X C T TS ST S F : Type}

/-- One call received by a collaborator or by the response stream, with the
error it answered for the calls that only answer an error. -/
inductive Call (X C T TS F : Type) where
  | StartJob (persistJobInfo : persist.JobInfo C T TS) (err : Option (Err X C T))
  | CreateJobInfo (persistJobInfo : persist.JobInfo C T TS) (err : Option (Err X C T))
  | GetJobInfo (job : Option pps.Job)
  | ListJobInfos (request : F)
  | GetJobStatuses (job : Option pps.Job)
  | GetJobOutput (job : Option pps.Job)
  | GetJobLogs (job : Option pps.Job)
  | Send (value : google_protobuf.BytesValue) (err : Option (Err X C T))
deriving DecidableEq, Repr

/-- The server `a` with collaborators that also write down, in order, every
call they receive; their answers and their effect on the outside world are
those of the collaborators of `a`. -/
def apiServer.recording (a : apiServer W X C T TS ST S F) :
    apiServer (W × List (Call X C T TS F)) X C T TS ST S F where
  StartJob := fun persistJobInfo s =>
    ((a.StartJob persistJobInfo s.1).1,
      ((a.StartJob persistJobInfo s.1).2,
        s.2 ++ [Call.StartJob persistJobInfo (a.StartJob persistJobInfo s.1).1]))
  persistAPIClient :=
    { CreateJobInfo := fun persistJobInfo s =>
        ((a.persistAPIClient.CreateJobInfo persistJobInfo s.1).1,
          ((a.persistAPIClient.CreateJobInfo persistJobInfo s.1).2,
            s.2 ++ [Call.CreateJobInfo persistJobInfo
              (a.persistAPIClient.CreateJobInfo persistJobInfo s.1).1]))
      GetJobInfo := fun job s =>
        ((a.persistAPIClient.GetJobInfo job s.1).1,
          ((a.persistAPIClient.GetJobInfo job s.1).2, s.2 ++ [Call.GetJobInfo job]))
      ListJobInfos := fun request s =>
        ((a.persistAPIClient.ListJobInfos request s.1).1,
          ((a.persistAPIClient.ListJobInfos request s.1).2, s.2 ++ [Call.ListJobInfos request]))
      GetJobStatuses := fun job s =>
        ((a.persistAPIClient.GetJobStatuses job s.1).1,
          ((a.persistAPIClient.GetJobStatuses job s.1).2, s.2 ++ [Call.GetJobStatuses job]))
      GetJobOutput := fun job s =>
        ((a.persistAPIClient.GetJobOutput job s.1).1,
          ((a.persistAPIClient.GetJobOutput job s.1).2, s.2 ++ [Call.GetJobOutput job]))
      GetJobLogs := fun job s =>
        ((a.persistAPIClient.GetJobLogs job s.1).1,
          ((a.persistAPIClient.GetJobLogs job s.1).2, s.2 ++ [Call.GetJobLogs job])) }

/-- The response stream `r` that also writes down every `Send` it receives. -/
def recordingStream (F TS : Type) (r : pps.JobAPI_GetJobLogsServer W X C T) :
    pps.JobAPI_GetJobLogsServer (W × List (Call X C T TS F)) X C T where
  Send := fun value s =>
    ((r.Send value s.1).1, ((r.Send value s.1).2, s.2 ++ [Call.Send value (r.Send value s.1).1]))

/-- The record `CreateJob` hands to the launcher and to the persistence service
for a request that passes validation with the spec case `spec`. -/
def createdRecord (newId : String) (now : TS) (request : pps.CreateJobRequest C T)
    (spec : persist.isJobInfo_Spec T) : persist.JobInfo C T TS :=
  { JobId := newId, Input := request.Input, OutputParent := request.OutputParent,
    Spec := some spec, CreatedAt := some now }

/-- The state of the outside world when `ListJob` starts the assembly of the
`i`-th record of the listing `rs`, the first assembly starting in state `w`: the
assemblies run one after the other, each from the state the previous one left. -/
def apiServer.stateBefore (a : apiServer W X C T TS ST S F) :
    List (persist.JobInfo C T TS) → W → Nat → W
  | _, w, 0 => w
  | [], w, _ + 1 => w
  | r :: rs, w, i + 1 => a.stateBefore rs (a.persistJobInfoToJobInfo r w).2 i

/-! ## A small concrete server, used to evaluate the handlers -/

/-- Errors of the concrete server. -/
abbrev DemoErr : Type := Err String String String

/-- Records of the concrete server. -/
abbrev DemoRecord : Type := persist.JobInfo String String Nat

/-- A concrete server over an in-memory store (the list of records written so
far).  The launcher answers `launch`; `CreateJobInfo` answers `store` and, when
that is `nil`, appends the record; `GetJobInfo` looks the job up by identifier;
`ListJobInfos` returns the store; the other reads answer `statuses`, `output`
(which may look at the store) and `logs`. -/
def demoServer (launch store : Option DemoErr)
    (statuses : Option pps.Job → Except DemoErr (persist.JobStatuses Nat Nat))
    (output : Option pps.Job → List DemoRecord →
      Except DemoErr (Option (persist.JobOutput String)))
    (logs : Except DemoErr (persist.JobLogs Nat)) :
    apiServer (List DemoRecord) String String String Nat Nat Nat Unit where
  StartJob := fun _ w => (launch, w)
  persistAPIClient :=
    { CreateJobInfo := fun persistJobInfo w =>
        match store with
        | none => (none, w ++ [persistJobInfo])
        | some err => (some err, w)
      GetJobInfo := fun job w =>
        match w.find? (fun r => decide (some ({ Id := r.JobId } : pps.Job) = job)) with
        | some r => (Except.ok r, w)
        | none => (Except.error (Error.external "not found"), w)
      ListJobInfos := fun _ w => (Except.ok { JobInfo := w }, w)
      GetJobStatuses := fun job w => (statuses job, w)
      GetJobOutput := fun job w => (output job w, w)
      GetJobLogs := fun _ w => (logs, w) }

/-- Status read of the concrete server: no status yet for any job. -/
def noStatuses : Option pps.Job → Except DemoErr (persist.JobStatuses Nat Nat) :=
  fun _ => Except.ok { JobStatus := [] }

/-- Output read of the concrete server: the empty result for any job. -/
def noOutput : Option pps.Job → List DemoRecord →
    Except DemoErr (Option (persist.JobOutput String)) :=
  fun _ _ => Except.ok none

/-- Log fetch of the concrete server: no log entry. -/
def noLogs : Except DemoErr (persist.JobLogs Nat) := Except.ok { JobLog := [] }

/-- Status read of the concrete server: two events, type 1 at time 10 and
type 2 at time 20, for any job. -/
def twoStatuses : Option pps.Job → Except DemoErr (persist.JobStatuses Nat Nat) :=
  fun _ => Except.ok
    { JobStatus :=
        [{ Type_ := 1, Timestamp := some 10, Message := "A" },
          { Type_ := 2, Timestamp := some 20, Message := "B" }] }

/-- Output read of the concrete server: the output reference `out` for any
job. -/
def oneOutput : Option pps.Job → List DemoRecord →
    Except DemoErr (Option (persist.JobOutput String)) :=
  fun _ _ => Except.ok (some { Output := some "out" })

/-- The status sequence answered by `twoStatuses`. -/
def demoStatuses : persist.JobStatuses Nat Nat :=
  { JobStatus :=
      [{ Type_ := 1, Timestamp := some 10, Message := "A" },
        { Type_ := 2, Timestamp := some 20, Message := "B" }] }

/-- The record of the concrete server for the job with identifier `id`. -/
def demoRecordOf (id : String) : DemoRecord :=
  { JobId := id, Input := some "in", OutputParent := none,
    Spec := some (persist.isJobInfo_Spec.JobInfo_Transform (some "t1")), CreatedAt := some 7 }

/-- Status read of the concrete server that fails for job `j2` and answers
`twoStatuses` for every other job. -/
def failingStatuses : Option pps.Job → Except DemoErr (persist.JobStatuses Nat Nat) :=
  fun job =>
    if job = some { Id := "j2" } then Except.error (Error.external "no statuses")
    else twoStatuses job

/-- A store of three records, for the jobs `j1`, `j2` and `j3`. -/
def demoStore : List DemoRecord := [demoRecordOf "j1", demoRecordOf "j2", demoRecordOf "j3"]

/-- Log fetch of the concrete server: three entries, tagged 1, 2 and 1. -/
def demoLogs : Except DemoErr (persist.JobLogs Nat) :=
  Except.ok
    { JobLog :=
        [{ OutputStream := 1, Value := [97] }, { OutputStream := 2, Value := [98] },
          { OutputStream := 1, Value := [99] }] }

/-- A response stream of the concrete server whose `Send` always succeeds. -/
def demoStream : pps.JobAPI_GetJobLogsServer (List DemoRecord) String String String where
  Send := fun _ w => (none, w)

/-- A request that sets Transform only. -/
def transformRequest : pps.CreateJobRequest String String :=
  { GetTransform := some "t1", GetPipeline := none, Input := some "in", OutputParent := none }

/-- A request that sets Pipeline only. -/
def pipelineRequest : pps.CreateJobRequest String String :=
  { GetTransform := none, GetPipeline := some { Name := "p1" }, Input := some "in",
    OutputParent := none }

/-- A request that sets neither Transform nor Pipeline. -/
def emptyRequest : pps.CreateJobRequest String String :=
  { GetTransform := none, GetPipeline := none, Input := some "in", OutputParent := none }

/-- The record of the concrete server for job `j1`, created at time 7 from a
request with input `in`, with spec case `spec`. -/
def demoRecord (spec : persist.isJobInfo_Spec String) : DemoRecord :=
  { JobId := "j1", Input := some "in", OutputParent := none, Spec := some spec,
    CreatedAt := some 7 }

/-- Whether a call is a `StartJob` call to the launcher. -/
def Call.isStartJob : Call X C T TS F → Bool
  | Call.StartJob _ _ => true
  | _ => false

/-- Whether a call is a `CreateJobInfo` call to the persistence service. -/
def Call.isCreateJobInfo : Call X C T TS F → Bool
  | Call.CreateJobInfo _ _ => true
  | _ => false

/-- All of `CreateJob` over recording collaborators, for a request that passes
validation with spec case `spec`: result, outside world and calls, by the
answers of the launcher and of the persistence service. -/
theorem CreateJob_recording_of_spec (a : apiServer W X C T TS ST S F) (newId : String) (now : TS)
    (request : pps.CreateJobRequest C T) (w : W) (tr : List (Call X C T TS F))
    (spec : persist.isJobInfo_Spec T)
    (hspec : (request.GetTransform.isSome = true ∧
        spec = persist.isJobInfo_Spec.JobInfo_Transform request.GetTransform) ∨
      (request.GetTransform = none ∧ ∃ p, request.GetPipeline = some p ∧
        spec = persist.isJobInfo_Spec.JobInfo_PipelineName p.Name)) :
    a.recording.CreateJob newId now request (w, tr) =
      match a.StartJob (createdRecord newId now request spec) w with
      | (some err, w1) =>
        (Except.error err,
          (w1, tr ++ [Call.StartJob (createdRecord newId now request spec) (some err)]))
      | (none, w1) =>
        match a.persistAPIClient.CreateJobInfo (createdRecord newId now request spec) w1 with
        | (some err, w2) =>
          (Except.error err,
            (w2, tr ++ [Call.StartJob (createdRecord newId now request spec) none,
              Call.CreateJobInfo (createdRecord newId now request spec) (some err)]))
        | (none, w2) =>
          (Except.ok { Id := newId },
            (w2, tr ++ [Call.StartJob (createdRecord newId now request spec) none,
              Call.CreateJobInfo (createdRecord newId now request spec) none])) := by
  rcases hspec with ⟨ht, rfl⟩ | ⟨ht, p, hp, rfl⟩
  · rcases h1 : a.StartJob (createdRecord newId now request
        (persist.isJobInfo_Spec.JobInfo_Transform request.GetTransform)) w with ⟨r1, w1⟩
    rcases h2 : a.persistAPIClient.CreateJobInfo (createdRecord newId now request
        (persist.isJobInfo_Spec.JobInfo_Transform request.GetTransform)) w1 with ⟨r2, w2⟩
    simp only [createdRecord] at h1 h2
    cases r1 <;> cases r2 <;>
      simp [apiServer.CreateJob, apiServer.recording, createdRecord, ht, h1, h2]
  · rcases h1 : a.StartJob (createdRecord newId now request
        (persist.isJobInfo_Spec.JobInfo_PipelineName p.Name)) w with ⟨r1, w1⟩
    rcases h2 : a.persistAPIClient.CreateJobInfo (createdRecord newId now request
        (persist.isJobInfo_Spec.JobInfo_PipelineName p.Name)) w1 with ⟨r2, w2⟩
    simp only [createdRecord] at h1 h2
    cases r1 <;> cases r2 <;>
      simp [apiServer.CreateJob, apiServer.recording, createdRecord, ht, hp, h1, h2]

/-- `CreateJob` over recording collaborators for a request with neither Transform
nor Pipeline set: the formatted error, and neither the outside world nor the
record of calls changes. -/
theorem CreateJob_recording_of_unset (a : apiServer W X C T TS ST S F) (newId : String) (now : TS)
    (request : pps.CreateJobRequest C T) (w : W) (tr : List (Call X C T TS F))
    (ht : request.GetTransform = none) (hp : request.GetPipeline = none) :
    a.recording.CreateJob newId now request (w, tr) =
      (Except.error (Error.Errorf
        "pachyderm.pps.jobserver: both transform and pipeline are not set on %v" request),
        (w, tr)) := by
  simp [apiServer.CreateJob, ht, hp]

/-- Recording the calls changes neither the result of `CreateJob` nor its
effect on the outside world. -/
theorem CreateJob_recording_result (a : apiServer W X C T TS ST S F) (newId : String) (now : TS)
    (request : pps.CreateJobRequest C T) (w : W) (tr : List (Call X C T TS F)) :
    (a.recording.CreateJob newId now request (w, tr)).1 = (a.CreateJob newId now request w).1 ∧
    (a.recording.CreateJob newId now request (w, tr)).2.1 =
      (a.CreateJob newId now request w).2 := by
  obtain ⟨gt, gp, inp, outp⟩ := request
  cases gt with
  | some t =>
    rcases h1 : a.StartJob
        { JobId := newId, Input := inp, OutputParent := outp,
          Spec := some (persist.isJobInfo_Spec.JobInfo_Transform (some t)),
          CreatedAt := some now } w with ⟨r1, w1⟩
    rcases h2 : a.persistAPIClient.CreateJobInfo
        { JobId := newId, Input := inp, OutputParent := outp,
          Spec := some (persist.isJobInfo_Spec.JobInfo_Transform (some t)),
          CreatedAt := some now } w1 with ⟨r2, w2⟩
    cases r1 <;> cases r2 <;> simp [apiServer.CreateJob, apiServer.recording, h1, h2]
  | none =>
    cases gp with
    | none => simp [apiServer.CreateJob]
    | some p =>
      rcases h1 : a.StartJob
          { JobId := newId, Input := inp, OutputParent := outp,
            Spec := some (persist.isJobInfo_Spec.JobInfo_PipelineName p.Name),
            CreatedAt := some now } w with ⟨r1, w1⟩
      rcases h2 : a.persistAPIClient.CreateJobInfo
          { JobId := newId, Input := inp, OutputParent := outp,
            Spec := some (persist.isJobInfo_Spec.JobInfo_PipelineName p.Name),
            CreatedAt := some now } w1 with ⟨r2, w2⟩
      cases r1 <;> cases r2 <;> simp [apiServer.CreateJob, apiServer.recording, h1, h2]

/-- Every request either has neither case set, or passes validation with a
spec case. -/
theorem request_cases (request : pps.CreateJobRequest C T) :
    (request.GetTransform = none ∧ request.GetPipeline = none) ∨
    ∃ spec : persist.isJobInfo_Spec T,
      (request.GetTransform.isSome = true ∧
        spec = persist.isJobInfo_Spec.JobInfo_Transform request.GetTransform) ∨
      (request.GetTransform = none ∧ ∃ p, request.GetPipeline = some p ∧
        spec = persist.isJobInfo_Spec.JobInfo_PipelineName p.Name) := by
  cases ht : request.GetTransform with
  | some t => exact Or.inr ⟨_, Or.inl ⟨rfl, rfl⟩⟩
  | none =>
    cases hp : request.GetPipeline with
    | some p => exact Or.inr ⟨_, Or.inr ⟨rfl, p, rfl, rfl⟩⟩
    | none => exact Or.inl ⟨rfl, rfl⟩

/-- C1: for every request and every launcher and persistence service, if the
launcher's `StartJob` call of a `CreateJob` call answers the error `e`, then
`CreateJob` returns no job and the error `e`, and the persistence service
receives no `CreateJobInfo` call during that `CreateJob` call. -/
theorem CreateJob_launcher_error (a : apiServer W X C T TS ST S F) (newId : String) (now : TS)
    (request : pps.CreateJobRequest C T) (w : W) (persistJobInfo : persist.JobInfo C T TS)
    (e : Err X C T)
    (hfail : Call.StartJob persistJobInfo (some e) ∈
      (a.recording.CreateJob newId now request (w, ([] : List (Call X C T TS F)))).2.2) :
    (a.CreateJob newId now request w).1 = Except.error e ∧
    (a.recording.CreateJob newId now request (w, ([] : List (Call X C T TS F)))).1 =
      Except.error e ∧
    ∀ (info : persist.JobInfo C T TS) (r : Option (Err X C T)),
      Call.CreateJobInfo info r ∉
        (a.recording.CreateJob newId now request (w, ([] : List (Call X C T TS F)))).2.2 := by
  rw [← (CreateJob_recording_result a newId now request w ([] : List (Call X C T TS F))).1]
  rcases request_cases request with ⟨ht, hp⟩ | ⟨spec, hspec⟩
  · rw [CreateJob_recording_of_unset a newId now request w [] ht hp] at hfail
    simp at hfail
  · rw [CreateJob_recording_of_spec a newId now request w [] spec hspec] at hfail ⊢
    rcases h1 : a.StartJob (createdRecord newId now request spec) w with ⟨r1, w1⟩
    rcases h2 : a.persistAPIClient.CreateJobInfo (createdRecord newId now request spec) w1
      with ⟨r2, w2⟩
    cases r1 <;> cases r2 <;> simp [h1, h2] at hfail ⊢ <;> exact hfail.2.symm

/-- Witness of C1: a launcher that answers `launch failed`. -/
theorem CreateJob_launcher_error_witness :
    Call.StartJob (demoRecord (persist.isJobInfo_Spec.JobInfo_Transform (some "t1")))
        (some (Error.external "launch failed")) ∈
      ((demoServer (some (Error.external "launch failed")) none noStatuses noOutput
        noLogs).recording.CreateJob "j1" 7 transformRequest ([], [])).2.2 ∧
    (((demoServer (some (Error.external "launch failed")) none noStatuses noOutput
        noLogs).CreateJob "j1" 7 transformRequest []).1 =
      Except.error (Error.external "launch failed") ∧
    ((demoServer (some (Error.external "launch failed")) none noStatuses noOutput
        noLogs).recording.CreateJob "j1" 7 transformRequest ([], [])).1 =
      Except.error (Error.external "launch failed") ∧
    ∀ (info : DemoRecord) (r : Option DemoErr),
      Call.CreateJobInfo info r ∉
        ((demoServer (some (Error.external "launch failed")) none noStatuses noOutput
          noLogs).recording.CreateJob "j1" 7 transformRequest ([], [])).2.2) :=
  ⟨List.Mem.head _,
    CreateJob_launcher_error _ "j1" 7 transformRequest [] _ _ (List.Mem.head _)⟩

/-- C2: for every request in which neither Transform nor Pipeline is set,
`CreateJob` returns no job and the error
`fmt.Errorf("... both transform and pipeline are not set on %v", request)`, the
invalid-argument error naming the request, and makes no external call: the record
of calls stays empty (no `StartJob`, no `CreateJobInfo`) and the outside world is
unchanged. -/
theorem CreateJob_neither_set (a : apiServer W X C T TS ST S F) (newId : String) (now : TS)
    (request : pps.CreateJobRequest C T) (w : W)
    (ht : request.GetTransform = none) (hp : request.GetPipeline = none) :
    a.recording.CreateJob newId now request (w, ([] : List (Call X C T TS F))) =
      (Except.error (Error.Errorf
        "pachyderm.pps.jobserver: both transform and pipeline are not set on %v" request),
        (w, [])) ∧
    (a.CreateJob newId now request w).1 =
      Except.error (Error.Errorf
        "pachyderm.pps.jobserver: both transform and pipeline are not set on %v" request) := by
  constructor
  · simp [apiServer.CreateJob, ht, hp]
  · simp [apiServer.CreateJob, ht, hp]

/-- Witness of C2: the request with neither case set. -/
theorem CreateJob_neither_set_witness :
    emptyRequest.GetTransform = none ∧ emptyRequest.GetPipeline = none ∧
    ((demoServer none none noStatuses noOutput noLogs).recording.CreateJob "j1" 7
        emptyRequest ([], ([] : List (Call String String String Nat Unit))) =
      (Except.error (Error.Errorf
        "pachyderm.pps.jobserver: both transform and pipeline are not set on %v" emptyRequest),
        ([], [])) ∧
    ((demoServer none none noStatuses noOutput noLogs).CreateJob "j1" 7 emptyRequest []).1 =
      Except.error (Error.Errorf
        "pachyderm.pps.jobserver: both transform and pipeline are not set on %v"
        emptyRequest)) :=
  ⟨rfl, rfl, CreateJob_neither_set _ "j1" 7 emptyRequest [] rfl rfl⟩

/-- C4: for every valid request (Transform `t` only, or Pipeline `p` only), if
the launcher answers success to `StartJob` for the record built from the request
and the persistence service then answers the error `e` to `CreateJobInfo` for
that record, `CreateJob` returns no job and exactly the error `e`, and the calls
of that `CreateJob` call are that one `StartJob` followed by that one
`CreateJobInfo`: each is called exactly once, neither is retried. -/
theorem CreateJob_persist_error (a : apiServer W X C T TS ST S F) (newId : String) (now : TS)
    (request : pps.CreateJobRequest C T) (w w1 w2 : W) (e : Err X C T) :
    (∀ t : T, request.GetTransform = some t → request.GetPipeline = none →
      a.StartJob
        { JobId := newId, Input := request.Input, OutputParent := request.OutputParent,
          Spec := some (persist.isJobInfo_Spec.JobInfo_Transform (some t)),
          CreatedAt := some now } w = (none, w1) →
      a.persistAPIClient.CreateJobInfo
        { JobId := newId, Input := request.Input, OutputParent := request.OutputParent,
          Spec := some (persist.isJobInfo_Spec.JobInfo_Transform (some t)),
          CreatedAt := some now } w1 = (some e, w2) →
      a.CreateJob newId now request w = (Except.error e, w2) ∧
      a.recording.CreateJob newId now request (w, ([] : List (Call X C T TS F))) =
        (Except.error e,
          (w2,
            [Call.StartJob
                { JobId := newId, Input := request.Input,
                  OutputParent := request.OutputParent,
                  Spec := some (persist.isJobInfo_Spec.JobInfo_Transform (some t)),
                  CreatedAt := some now } none,
              Call.CreateJobInfo
                { JobId := newId, Input := request.Input,
                  OutputParent := request.OutputParent,
                  Spec := some (persist.isJobInfo_Spec.JobInfo_Transform (some t)),
                  CreatedAt := some now } (some e)])) ∧
      List.countP Call.isCreateJobInfo
        (a.recording.CreateJob newId now request (w, ([] : List (Call X C T TS F)))).2.2 = 1 ∧
      List.countP Call.isStartJob
        (a.recording.CreateJob newId now request (w, ([] : List (Call X C T TS F)))).2.2 = 1) ∧
    (∀ p : pps.Pipeline, request.GetTransform = none → request.GetPipeline = some p →
      a.StartJob
        { JobId := newId, Input := request.Input, OutputParent := request.OutputParent,
          Spec := some (persist.isJobInfo_Spec.JobInfo_PipelineName p.Name),
          CreatedAt := some now } w = (none, w1) →
      a.persistAPIClient.CreateJobInfo
        { JobId := newId, Input := request.Input, OutputParent := request.OutputParent,
          Spec := some (persist.isJobInfo_Spec.JobInfo_PipelineName p.Name),
          CreatedAt := some now } w1 = (some e, w2) →
      a.CreateJob newId now request w = (Except.error e, w2) ∧
      a.recording.CreateJob newId now request (w, ([] : List (Call X C T TS F))) =
        (Except.error e,
          (w2,
            [Call.StartJob
                { JobId := newId, Input := request.Input,
                  OutputParent := request.OutputParent,
                  Spec := some (persist.isJobInfo_Spec.JobInfo_PipelineName p.Name),
                  CreatedAt := some now } none,
              Call.CreateJobInfo
                { JobId := newId, Input := request.Input,
                  OutputParent := request.OutputParent,
                  Spec := some (persist.isJobInfo_Spec.JobInfo_PipelineName p.Name),
                  CreatedAt := some now } (some e)])) ∧
      List.countP Call.isCreateJobInfo
        (a.recording.CreateJob newId now request (w, ([] : List (Call X C T TS F)))).2.2 = 1 ∧
      List.countP Call.isStartJob
        (a.recording.CreateJob newId now request (w, ([] : List (Call X C T TS F)))).2.2 = 1) := by
  obtain ⟨gt, gp, inp, outp⟩ := request
  constructor
  · intro t ht hp hstart hcreate
    simp only at ht hp hstart hcreate
    subst ht hp
    simp [apiServer.CreateJob, apiServer.recording, hstart, hcreate, Call.isCreateJobInfo,
      Call.isStartJob]
  · intro p ht hp hstart hcreate
    simp only at ht hp hstart hcreate
    subst ht hp
    simp [apiServer.CreateJob, apiServer.recording, hstart, hcreate, Call.isCreateJobInfo,
      Call.isStartJob]

/-- Witness of C4: a launcher that succeeds and a persistence service that
answers `write failed`, for the Transform-only request and for the Pipeline-only
request. -/
theorem CreateJob_persist_error_witness :
    ((demoServer none (some (Error.external "write failed")) noStatuses noOutput
        noLogs).CreateJob "j1" 7 transformRequest [] =
        (Except.error (Error.external "write failed"), []) ∧
      (demoServer none (some (Error.external "write failed")) noStatuses noOutput
        noLogs).recording.CreateJob "j1" 7 transformRequest ([], []) =
        (Except.error (Error.external "write failed"),
          ([],
            [Call.StartJob (demoRecord (persist.isJobInfo_Spec.JobInfo_Transform (some "t1")))
                none,
              Call.CreateJobInfo
                (demoRecord (persist.isJobInfo_Spec.JobInfo_Transform (some "t1")))
                (some (Error.external "write failed"))])) ∧
      List.countP Call.isCreateJobInfo
        ((demoServer none (some (Error.external "write failed")) noStatuses noOutput
          noLogs).recording.CreateJob "j1" 7 transformRequest ([], [])).2.2 = 1 ∧
      List.countP Call.isStartJob
        ((demoServer none (some (Error.external "write failed")) noStatuses noOutput
          noLogs).recording.CreateJob "j1" 7 transformRequest ([], [])).2.2 = 1) ∧
    ((demoServer none (some (Error.external "write failed")) noStatuses noOutput
        noLogs).CreateJob "j1" 7 pipelineRequest [] =
        (Except.error (Error.external "write failed"), []) ∧
      (demoServer none (some (Error.external "write failed")) noStatuses noOutput
        noLogs).recording.CreateJob "j1" 7 pipelineRequest ([], []) =
        (Except.error (Error.external "write failed"),
          ([],
            [Call.StartJob (demoRecord (persist.isJobInfo_Spec.JobInfo_PipelineName "p1")) none,
              Call.CreateJobInfo (demoRecord (persist.isJobInfo_Spec.JobInfo_PipelineName "p1"))
                (some (Error.external "write failed"))])) ∧
      List.countP Call.isCreateJobInfo
        ((demoServer none (some (Error.external "write failed")) noStatuses noOutput
          noLogs).recording.CreateJob "j1" 7 pipelineRequest ([], [])).2.2 = 1 ∧
      List.countP Call.isStartJob
        ((demoServer none (some (Error.external "write failed")) noStatuses noOutput
          noLogs).recording.CreateJob "j1" 7 pipelineRequest ([], [])).2.2 = 1) :=
  ⟨(CreateJob_persist_error
      (demoServer none (some (Error.external "write failed")) noStatuses noOutput noLogs)
      "j1" 7 transformRequest [] [] [] (Error.external "write failed")).1 "t1" rfl rfl rfl rfl,
    (CreateJob_persist_error
      (demoServer none (some (Error.external "write failed")) noStatuses noOutput noLogs)
      "j1" 7 pipelineRequest [] [] [] (Error.external "write failed")).2 { Name := "p1" }
      rfl rfl rfl rfl⟩

/-- C5: for every valid request (Transform `t` only, or Pipeline `p` only), if
the launcher answers success to `StartJob` and the persistence service answers
success to `CreateJobInfo` for the record built from the request, `CreateJob`
returns the job whose identifier is the new identifier, and its calls are that
`StartJob` followed by that `CreateJobInfo`.  The record written carries the new
identifier, the input and the output parent of the request unchanged, and the
spec `Transform(t)`, respectively `PipelineName(n)` for `n` the name of `p`. -/
theorem CreateJob_success_record (a : apiServer W X C T TS ST S F) (newId : String) (now : TS)
    (request : pps.CreateJobRequest C T) (w w1 w2 : W) :
    (∀ t : T, request.GetTransform = some t → request.GetPipeline = none →
      a.StartJob
        { JobId := newId, Input := request.Input, OutputParent := request.OutputParent,
          Spec := some (persist.isJobInfo_Spec.JobInfo_Transform (some t)),
          CreatedAt := some now } w = (none, w1) →
      a.persistAPIClient.CreateJobInfo
        { JobId := newId, Input := request.Input, OutputParent := request.OutputParent,
          Spec := some (persist.isJobInfo_Spec.JobInfo_Transform (some t)),
          CreatedAt := some now } w1 = (none, w2) →
      a.CreateJob newId now request w = (Except.ok { Id := newId }, w2) ∧
      a.recording.CreateJob newId now request (w, ([] : List (Call X C T TS F))) =
        (Except.ok { Id := newId },
          (w2,
            [Call.StartJob
                { JobId := newId, Input := request.Input,
                  OutputParent := request.OutputParent,
                  Spec := some (persist.isJobInfo_Spec.JobInfo_Transform (some t)),
                  CreatedAt := some now } none,
              Call.CreateJobInfo
                { JobId := newId, Input := request.Input,
                  OutputParent := request.OutputParent,
                  Spec := some (persist.isJobInfo_Spec.JobInfo_Transform (some t)),
                  CreatedAt := some now } none]))) ∧
    (∀ p : pps.Pipeline, request.GetTransform = none → request.GetPipeline = some p →
      a.StartJob
        { JobId := newId, Input := request.Input, OutputParent := request.OutputParent,
          Spec := some (persist.isJobInfo_Spec.JobInfo_PipelineName p.Name),
          CreatedAt := some now } w = (none, w1) →
      a.persistAPIClient.CreateJobInfo
        { JobId := newId, Input := request.Input, OutputParent := request.OutputParent,
          Spec := some (persist.isJobInfo_Spec.JobInfo_PipelineName p.Name),
          CreatedAt := some now } w1 = (none, w2) →
      a.CreateJob newId now request w = (Except.ok { Id := newId }, w2) ∧
      a.recording.CreateJob newId now request (w, ([] : List (Call X C T TS F))) =
        (Except.ok { Id := newId },
          (w2,
            [Call.StartJob
                { JobId := newId, Input := request.Input,
                  OutputParent := request.OutputParent,
                  Spec := some (persist.isJobInfo_Spec.JobInfo_PipelineName p.Name),
                  CreatedAt := some now } none,
              Call.CreateJobInfo
                { JobId := newId, Input := request.Input,
                  OutputParent := request.OutputParent,
                  Spec := some (persist.isJobInfo_Spec.JobInfo_PipelineName p.Name),
                  CreatedAt := some now } none]))) := by
  obtain ⟨gt, gp, inp, outp⟩ := request
  constructor
  · intro t ht hp hstart hcreate
    simp only at ht hp hstart hcreate
    subst ht hp
    simp [apiServer.CreateJob, apiServer.recording, hstart, hcreate]
  · intro p ht hp hstart hcreate
    simp only at ht hp hstart hcreate
    subst ht hp
    simp [apiServer.CreateJob, apiServer.recording, hstart, hcreate]

/-- Witness of C5: the Transform-only request and the Pipeline-only request on a
server whose launcher and persistence service succeed; the record is appended to
the store. -/
theorem CreateJob_success_record_witness :
    ((demoServer none none noStatuses noOutput noLogs).CreateJob "j1" 7 transformRequest [] =
        (Except.ok { Id := "j1" },
          [demoRecord (persist.isJobInfo_Spec.JobInfo_Transform (some "t1"))]) ∧
      (demoServer none none noStatuses noOutput noLogs).recording.CreateJob "j1" 7
          transformRequest ([], []) =
        (Except.ok { Id := "j1" },
          ([demoRecord (persist.isJobInfo_Spec.JobInfo_Transform (some "t1"))],
            [Call.StartJob (demoRecord (persist.isJobInfo_Spec.JobInfo_Transform (some "t1")))
                none,
              Call.CreateJobInfo
                (demoRecord (persist.isJobInfo_Spec.JobInfo_Transform (some "t1"))) none]))) ∧
    ((demoServer none none noStatuses noOutput noLogs).CreateJob "j1" 7 pipelineRequest [] =
        (Except.ok { Id := "j1" },
          [demoRecord (persist.isJobInfo_Spec.JobInfo_PipelineName "p1")]) ∧
      (demoServer none none noStatuses noOutput noLogs).recording.CreateJob "j1" 7
          pipelineRequest ([], []) =
        (Except.ok { Id := "j1" },
          ([demoRecord (persist.isJobInfo_Spec.JobInfo_PipelineName "p1")],
            [Call.StartJob (demoRecord (persist.isJobInfo_Spec.JobInfo_PipelineName "p1")) none,
              Call.CreateJobInfo
                (demoRecord (persist.isJobInfo_Spec.JobInfo_PipelineName "p1")) none]))) :=
  ⟨(CreateJob_success_record (demoServer none none noStatuses noOutput noLogs) "j1" 7
      transformRequest [] []
      [demoRecord (persist.isJobInfo_Spec.JobInfo_Transform (some "t1"))]).1 "t1"
      rfl rfl rfl rfl,
    (CreateJob_success_record (demoServer none none noStatuses noOutput noLogs) "j1" 7
      pipelineRequest [] []
      [demoRecord (persist.isJobInfo_Spec.JobInfo_PipelineName "p1")]).2 { Name := "p1" }
      rfl rfl rfl rfl⟩

/-- Writing slot `pre.length` of a slice whose slots from there on are still
`nil`. -/
theorem set_first_free {α : Type} (pre post : List (Option α)) (n : Nat) (v : Option α) :
    (pre ++ List.replicate (n + 1) none ++ post).set pre.length v =
      (pre ++ [v]) ++ List.replicate n none ++ post := by
  simp [List.replicate_succ, List.set_append]

/-- The loop of lines 139-145 fills the slots it ranges over, in order, and
leaves the rest of the slice alone. -/
theorem copyJobStatuses_fill (l : List (persist.JobStatus ST TS))
    (pre post : List (Option (pps.JobStatus ST TS))) :
    copyJobStatuses l pre.length (pre ++ List.replicate l.length none ++ post) =
      pre ++ l.map (fun x => some
        { Type_ := x.Type_, Timestamp := x.Timestamp, Message := x.Message }) ++ post := by
  induction l generalizing pre with
  | nil => simp [copyJobStatuses]
  | cons x rest ih =>
    have hlen : ∀ v : Option (pps.JobStatus ST TS), pre.length + 1 = (pre ++ [v]).length := by
      simp
    rw [copyJobStatuses, List.length_cons, set_first_free, hlen, ih]
    simp

/-- The view assembly when both reads succeed: the view, field by field. -/
theorem persistJobInfoToJobInfo_of_reads (a : apiServer W X C T TS ST S F)
    (persistJobInfo : persist.JobInfo C T TS) (w w1 w2 : W)
    (s : persist.JobStatuses ST TS) (o : Option (persist.JobOutput C))
    (hs : a.persistAPIClient.GetJobStatuses (some { Id := persistJobInfo.JobId }) w =
      (Except.ok s, w1))
    (ho : a.persistAPIClient.GetJobOutput (some { Id := persistJobInfo.JobId }) w1 =
      (Except.ok o, w2)) :
    a.persistJobInfoToJobInfo persistJobInfo w =
      (Except.ok
        { Job := some { Id := persistJobInfo.JobId },
          Input := persistJobInfo.Input,
          Spec :=
            if persistJobInfo.GetPipelineName ≠ "" then
              some (pps.isJobInfo_Spec.JobInfo_Pipeline
                (some { Name := persistJobInfo.GetPipelineName }))
            else if persistJobInfo.GetTransform.isSome then
              some (pps.isJobInfo_Spec.JobInfo_Transform persistJobInfo.GetTransform)
            else none,
          JobStatus := s.JobStatus.map (fun x => some
            { Type_ := x.Type_, Timestamp := x.Timestamp, Message := x.Message }),
          Output := o.bind (fun output => output.Output) }, w2) := by
  have hfill := copyJobStatuses_fill s.JobStatus [] []
  simp only [List.nil_append, List.append_nil, List.length_nil] at hfill
  unfold apiServer.persistJobInfoToJobInfo
  simp only [hs, ho, hfill]
  cases o <;> by_cases h1 : persistJobInfo.GetPipelineName = "" <;>
    by_cases h2 : persistJobInfo.GetTransform.isSome = true <;> simp [h1, h2]

/-- C6 fails: for the stored record whose spec is `PipelineName("")`, both reads
succeeding, the assembled view has no spec at all, not `Pipeline("")`. -/
theorem persistJobInfoToJobInfo_empty_name_counterexample :
    (demoRecord (persist.isJobInfo_Spec.JobInfo_PipelineName "")).Spec =
      some (persist.isJobInfo_Spec.JobInfo_PipelineName "") ∧
    (demoServer none none noStatuses noOutput noLogs).persistJobInfoToJobInfo
        (demoRecord (persist.isJobInfo_Spec.JobInfo_PipelineName "")) [] =
      (Except.ok
        { Job := some { Id := "j1" }, Input := some "in", Spec := none, JobStatus := [],
          Output := none }, []) :=
  ⟨rfl, rfl⟩

/-- C6, amended: when the status read and the output read both succeed, the
assembly returns a view that mirrors the spec of the record: `Transform(t)` for a
record with spec `Transform(t)`, and `Pipeline(n)` for a record with spec
`PipelineName(n)` for every non-empty name `n`. -/
theorem persistJobInfoToJobInfo_spec (a : apiServer W X C T TS ST S F)
    (persistJobInfo : persist.JobInfo C T TS) (w w1 w2 : W)
    (s : persist.JobStatuses ST TS) (o : Option (persist.JobOutput C))
    (hs : a.persistAPIClient.GetJobStatuses (some { Id := persistJobInfo.JobId }) w =
      (Except.ok s, w1))
    (ho : a.persistAPIClient.GetJobOutput (some { Id := persistJobInfo.JobId }) w1 =
      (Except.ok o, w2)) :
    ∃ view : pps.JobInfo C T TS ST,
      a.persistJobInfoToJobInfo persistJobInfo w = (Except.ok view, w2) ∧
      (∀ t : T, persistJobInfo.Spec = some (persist.isJobInfo_Spec.JobInfo_Transform (some t)) →
        view.Spec = some (pps.isJobInfo_Spec.JobInfo_Transform (some t))) ∧
      (∀ n : String, n ≠ "" →
        persistJobInfo.Spec = some (persist.isJobInfo_Spec.JobInfo_PipelineName n) →
        view.Spec = some (pps.isJobInfo_Spec.JobInfo_Pipeline (some { Name := n }))) := by
  refine ⟨_, persistJobInfoToJobInfo_of_reads a persistJobInfo w w1 w2 s o hs ho, ?_, ?_⟩
  · intro t h
    simp [persist.JobInfo.GetPipelineName, persist.JobInfo.GetTransform, h]
  · intro n hn h
    simp [persist.JobInfo.GetPipelineName, h, hn]

/-- Witness of the amended C6: the record with spec `PipelineName("p1")`. -/
theorem persistJobInfoToJobInfo_spec_witness :
    ((demoServer none none twoStatuses oneOutput noLogs).persistAPIClient.GetJobStatuses
        (some { Id := (demoRecord (persist.isJobInfo_Spec.JobInfo_PipelineName "p1")).JobId })
        [] = (Except.ok demoStatuses, []) ∧
      (demoServer none none twoStatuses oneOutput noLogs).persistAPIClient.GetJobOutput
        (some { Id := (demoRecord (persist.isJobInfo_Spec.JobInfo_PipelineName "p1")).JobId })
        [] = (Except.ok (some { Output := some "out" }), [])) ∧
    ∃ view : pps.JobInfo String String Nat Nat,
      (demoServer none none twoStatuses oneOutput noLogs).persistJobInfoToJobInfo
        (demoRecord (persist.isJobInfo_Spec.JobInfo_PipelineName "p1")) [] =
        (Except.ok view, []) ∧
      (∀ t : String,
        (demoRecord (persist.isJobInfo_Spec.JobInfo_PipelineName "p1")).Spec =
          some (persist.isJobInfo_Spec.JobInfo_Transform (some t)) →
        view.Spec = some (pps.isJobInfo_Spec.JobInfo_Transform (some t))) ∧
      (∀ n : String, n ≠ "" →
        (demoRecord (persist.isJobInfo_Spec.JobInfo_PipelineName "p1")).Spec =
          some (persist.isJobInfo_Spec.JobInfo_PipelineName n) →
        view.Spec = some (pps.isJobInfo_Spec.JobInfo_Pipeline (some { Name := n }))) :=
  ⟨⟨rfl, rfl⟩,
    persistJobInfoToJobInfo_spec (demoServer none none twoStatuses oneOutput noLogs)
      (demoRecord (persist.isJobInfo_Spec.JobInfo_PipelineName "p1")) [] [] []
      demoStatuses (some { Output := some "out" }) rfl rfl⟩

/-- The loop of `ListJob` when every assembly succeeds: it fills the slots it
ranges over with the views, in order. -/
theorem listJobLoop_ok (a : apiServer W X C T TS ST S F) (rs : List (persist.JobInfo C T TS))
    (pre post : List (Option (pps.JobInfo C T TS ST))) (w : W)
    (hall : ∀ (i : Nat) (h : i < rs.length), ∃ v,
      (a.persistJobInfoToJobInfo (rs.get ⟨i, h⟩) (a.stateBefore rs w i)).1 = Except.ok v) :
    ∃ views : List (pps.JobInfo C T TS ST),
      (a.listJobLoop rs pre.length (pre ++ List.replicate rs.length none ++ post) w).1 =
        Except.ok (pre ++ views.map some ++ post) ∧
      views.length = rs.length ∧
      ∀ (i : Nat) (h : i < rs.length) (h2 : i < views.length),
        (a.persistJobInfoToJobInfo (rs.get ⟨i, h⟩) (a.stateBefore rs w i)).1 =
          Except.ok (views.get ⟨i, h2⟩) := by
  induction rs generalizing pre w with
  | nil => exact ⟨[], by simp [apiServer.listJobLoop], rfl, fun i h => absurd h (by simp)⟩
  | cons r rest ih =>
    obtain ⟨v0, hv0⟩ := hall 0 (by simp)
    simp only [List.get_eq_getElem, List.getElem_cons_zero, apiServer.stateBefore] at hv0
    rcases hr : a.persistJobInfoToJobInfo r w with ⟨res, w1⟩
    rw [hr] at hv0
    simp only at hv0
    subst hv0
    have hall2 : ∀ (i : Nat) (h : i < rest.length), ∃ v,
        (a.persistJobInfoToJobInfo (rest.get ⟨i, h⟩) (a.stateBefore rest w1 i)).1 =
          Except.ok v := by
      intro i h
      have := hall (i + 1) (by simp; omega)
      simpa [apiServer.stateBefore, hr] using this
    obtain ⟨views, hloop, hlen, hviews⟩ := ih (pre ++ [some v0]) w1 hall2
    refine ⟨v0 :: views, ?_, by simp [hlen], ?_⟩
    · have hl : pre.length + 1 = (pre ++ [some v0]).length := by simp
      rw [apiServer.listJobLoop, hr]
      simp only [List.length_cons]
      rw [set_first_free, hl, hloop]
      simp
    · intro i h h2
      cases i with
      | zero => simp [apiServer.stateBefore, hr]
      | succ k =>
        have := hviews k (by simpa using h) (by simpa using h2)
        simpa [apiServer.stateBefore, hr] using this

/-- The loop of `ListJob` when the assembly of the `k`-th record is the first to
fail: the loop ends with the error of that assembly. -/
theorem listJobLoop_error (a : apiServer W X C T TS ST S F) (rs : List (persist.JobInfo C T TS))
    (n : Nat) (jobInfos : List (Option (pps.JobInfo C T TS ST))) (w : W)
    (k : Nat) (hk : k < rs.length) (e : Err X C T)
    (hbefore : ∀ (i : Nat) (h : i < rs.length), i < k → ∃ v,
      (a.persistJobInfoToJobInfo (rs.get ⟨i, h⟩) (a.stateBefore rs w i)).1 = Except.ok v)
    (hfail : (a.persistJobInfoToJobInfo (rs.get ⟨k, hk⟩) (a.stateBefore rs w k)).1 =
      Except.error e) :
    (a.listJobLoop rs n jobInfos w).1 = Except.error e := by
  induction rs generalizing n jobInfos w k with
  | nil => simp at hk
  | cons r rest ih =>
    rcases hr : a.persistJobInfoToJobInfo r w with ⟨res, w1⟩
    cases k with
    | zero =>
      simp only [List.get_eq_getElem, List.getElem_cons_zero, apiServer.stateBefore, hr] at hfail
      subst hfail
      simp [apiServer.listJobLoop, hr]
    | succ k =>
      obtain ⟨v0, hv0⟩ := hbefore 0 (by simp) (by omega)
      simp only [List.get_eq_getElem, List.getElem_cons_zero, apiServer.stateBefore, hr] at hv0
      subst hv0
      rw [apiServer.listJobLoop, hr]
      simp only
      apply ih (n + 1) _ w1 k (by simpa using hk)
      · intro i h hik
        have := hbefore (i + 1) (by simp; omega) (by omega)
        simpa [apiServer.stateBefore, hr] using this
      · simpa [apiServer.stateBefore, hr] using hfail

/-- C8: for every filter and every listing `rs` returned by the persistence
service, the assemblies running one after the other: if the assembly succeeds
for every record, `ListJob` returns exactly as many views as records, the `i`-th
being the assembly of the `i`-th record; and if the assembly of record `k` fails
with `e` while those before it succeed, `ListJob` returns the error `e` and no
list. -/
theorem ListJob_all_or_nothing (a : apiServer W X C T TS ST S F) (request : F) (w w0 : W)
    (rs : List (persist.JobInfo C T TS))
    (hlist : a.persistAPIClient.ListJobInfos request w = (Except.ok { JobInfo := rs }, w0)) :
    ((∀ (i : Nat) (h : i < rs.length), ∃ v,
        (a.persistJobInfoToJobInfo (rs.get ⟨i, h⟩) (a.stateBefore rs w0 i)).1 = Except.ok v) →
      ∃ views : List (pps.JobInfo C T TS ST),
        (a.ListJob request w).1 = Except.ok { JobInfo := views.map some } ∧
        views.length = rs.length ∧
        ∀ (i : Nat) (h : i < rs.length) (h2 : i < views.length),
          (a.persistJobInfoToJobInfo (rs.get ⟨i, h⟩) (a.stateBefore rs w0 i)).1 =
            Except.ok (views.get ⟨i, h2⟩)) ∧
    (∀ (k : Nat) (hk : k < rs.length) (e : Err X C T),
      (∀ (i : Nat) (h : i < rs.length), i < k → ∃ v,
        (a.persistJobInfoToJobInfo (rs.get ⟨i, h⟩) (a.stateBefore rs w0 i)).1 = Except.ok v) →
      (a.persistJobInfoToJobInfo (rs.get ⟨k, hk⟩) (a.stateBefore rs w0 k)).1 = Except.error e →
      (a.ListJob request w).1 = Except.error e) := by
  constructor
  · intro hall
    obtain ⟨views, hloop, hlen, hviews⟩ := listJobLoop_ok a rs [] [] w0 hall
    refine ⟨views, ?_, hlen, hviews⟩
    simp only [List.nil_append, List.append_nil, List.length_nil] at hloop
    rcases hl : a.listJobLoop rs 0 (List.replicate rs.length none) w0 with ⟨res, w1⟩
    rw [hl] at hloop
    simp only at hloop
    subst hloop
    simp [apiServer.ListJob, hlist, hl]
  · intro k hk e hbefore hfail
    have hloop := listJobLoop_error a rs 0 (List.replicate rs.length none) w0 k hk e hbefore hfail
    rcases hl : a.listJobLoop rs 0 (List.replicate rs.length none) w0 with ⟨res, w1⟩
    rw [hl] at hloop
    simp only at hloop
    subst hloop
    simp [apiServer.ListJob, hlist, hl]

/-- Witness of C8: over the store of three records, the listing succeeds with
three views when every status read succeeds, and fails with the error of the
second record when the status read of `j2` fails. -/
theorem ListJob_all_or_nothing_witness :
    (demoServer none none twoStatuses noOutput noLogs).persistAPIClient.ListJobInfos ()
        demoStore = (Except.ok { JobInfo := demoStore }, demoStore) ∧
    (∃ views : List (pps.JobInfo String String Nat Nat),
      ((demoServer none none twoStatuses noOutput noLogs).ListJob () demoStore).1 =
        Except.ok { JobInfo := views.map some } ∧
      views.length = demoStore.length ∧
      ∀ (i : Nat) (h : i < demoStore.length) (h2 : i < views.length),
        ((demoServer none none twoStatuses noOutput noLogs).persistJobInfoToJobInfo
          (demoStore.get ⟨i, h⟩)
          ((demoServer none none twoStatuses noOutput noLogs).stateBefore demoStore
            demoStore i)).1 = Except.ok (views.get ⟨i, h2⟩)) ∧
    ((demoServer none none failingStatuses noOutput noLogs).ListJob () demoStore).1 =
      Except.error (Error.external "no statuses") :=
  ⟨rfl,
    (ListJob_all_or_nothing (demoServer none none twoStatuses noOutput noLogs) ()
      demoStore demoStore demoStore rfl).1
      (fun i h =>
        match i, h with
        | 0, _ => ⟨_, rfl⟩
        | 1, _ => ⟨_, rfl⟩
        | 2, _ => ⟨_, rfl⟩
        | n + 3, h => absurd h (by simp [demoStore])),
    (ListJob_all_or_nothing (demoServer none none failingStatuses noOutput noLogs) ()
      demoStore demoStore demoStore rfl).2 1 (by decide) (Error.external "no statuses")
      (by
        intro i h hi
        have h0 : i = 0 := by omega
        subst h0
        exact ⟨_, rfl⟩)
      (by rfl)⟩

/-- One `Send` on a recording stream. -/
theorem recordingStream_Send (responseServer : pps.JobAPI_GetJobLogsServer W X C T)
    (value : google_protobuf.BytesValue) (w : W) (tr : List (Call X C T TS F)) :
    (recordingStream F TS responseServer).Send value (w, tr) =
      ((responseServer.Send value w).1,
        ((responseServer.Send value w).2,
          tr ++ [Call.Send value (responseServer.Send value w).1])) :=
  rfl

/-- The loop of `GetJobLogs` over a recording stream: the calls it adds, and,
when every `Send` among them succeeded, its result and exactly which sends they
are. -/
theorem getJobLogsLoop_recording [DecidableEq S] (OUTPUT_STREAM_ALL : S)
    (request : pps.GetJobLogsRequest S) (responseServer : pps.JobAPI_GetJobLogsServer W X C T)
    (l : List (persist.JobLog S)) (w : W) (tr : List (Call X C T TS F)) :
    ∃ new : List (Call X C T TS F),
      (getJobLogsLoop OUTPUT_STREAM_ALL request (recordingStream F TS responseServer) l
        (w, tr)).2.2 = tr ++ new ∧
      ((∀ (value : google_protobuf.BytesValue) (err : Option (Err X C T)),
          Call.Send value err ∈ new → err = none) →
        (getJobLogsLoop OUTPUT_STREAM_ALL request (recordingStream F TS responseServer) l
          (w, tr)).1 = none ∧
        new = ((if request.OutputStream = OUTPUT_STREAM_ALL then l
            else l.filter (fun x => decide (x.OutputStream = request.OutputStream))).map
          (fun x => Call.Send { Value := x.Value } none))) := by
  induction l generalizing w tr with
  | nil => exact ⟨[], by simp [getJobLogsLoop], fun _ => by simp [getJobLogsLoop]⟩
  | cons x rest ih =>
    by_cases hc : request.OutputStream = OUTPUT_STREAM_ALL ∨
        x.OutputStream = request.OutputStream
    · rcases hsend : responseServer.Send { Value := x.Value } w with ⟨r, w1⟩
      cases r with
      | some e =>
        refine ⟨[Call.Send { Value := x.Value } (some e)], ?_, ?_⟩
        · simp [getJobLogsLoop, recordingStream_Send, hc, hsend]
        · intro h
          have := h { Value := x.Value } (some e) (by simp)
          simp at this
      | none =>
        obtain ⟨new, h1, h2⟩ := ih w1 (tr ++ [Call.Send { Value := x.Value } none])
        refine ⟨Call.Send { Value := x.Value } none :: new, ?_, ?_⟩
        · simp [getJobLogsLoop, recordingStream_Send, hc, hsend, h1]
        · intro h
          obtain ⟨h3, h4⟩ := h2 (fun value err hm => h value err (List.mem_cons_of_mem _ hm))
          constructor
          · simp [getJobLogsLoop, recordingStream_Send, hc, hsend, h3]
          · rw [h4]
            by_cases hall : request.OutputStream = OUTPUT_STREAM_ALL
            · simp [hall]
            · have hx : x.OutputStream = request.OutputStream := hc.resolve_left hall
              simp [hall, hx]
    · obtain ⟨new, h1, h2⟩ := ih w tr
      have hall : ¬ request.OutputStream = OUTPUT_STREAM_ALL := fun h => hc (Or.inl h)
      have hx : ¬ x.OutputStream = request.OutputStream := fun h => hc (Or.inr h)
      refine ⟨new, ?_, ?_⟩
      · simp [getJobLogsLoop, hc, h1]
      · intro h
        obtain ⟨h3, h4⟩ := h2 h
        constructor
        · simp [getJobLogsLoop, hc, h3]
        · rw [h4]
          simp [hall, hx]

/-- Recording the calls changes neither the result of the loop of `GetJobLogs`
nor its effect on the outside world. -/
theorem getJobLogsLoop_recording_result [DecidableEq S] (OUTPUT_STREAM_ALL : S)
    (request : pps.GetJobLogsRequest S) (responseServer : pps.JobAPI_GetJobLogsServer W X C T)
    (l : List (persist.JobLog S)) (w : W) (tr : List (Call X C T TS F)) :
    (getJobLogsLoop OUTPUT_STREAM_ALL request (recordingStream F TS responseServer) l
      (w, tr)).1 = (getJobLogsLoop OUTPUT_STREAM_ALL request responseServer l w).1 ∧
    (getJobLogsLoop OUTPUT_STREAM_ALL request (recordingStream F TS responseServer) l
      (w, tr)).2.1 = (getJobLogsLoop OUTPUT_STREAM_ALL request responseServer l w).2 := by
  induction l generalizing w tr with
  | nil => simp [getJobLogsLoop]
  | cons x rest ih =>
    by_cases hc : request.OutputStream = OUTPUT_STREAM_ALL ∨
        x.OutputStream = request.OutputStream
    · rcases hsend : responseServer.Send { Value := x.Value } w with ⟨r, w1⟩
      cases r with
      | some e => simp [getJobLogsLoop, recordingStream_Send, hc, hsend]
      | none =>
        simp only [getJobLogsLoop, recordingStream_Send, hc, hsend, if_true]
        exact ih w1 _
    · simp only [getJobLogsLoop, hc, if_false]
      exact ih w tr

/-- Recording the calls changes neither the result of `GetJobLogs` nor its effect
on the outside world. -/
theorem GetJobLogs_recording_result [DecidableEq S] (a : apiServer W X C T TS ST S F)
    (OUTPUT_STREAM_ALL : S) (request : pps.GetJobLogsRequest S)
    (responseServer : pps.JobAPI_GetJobLogsServer W X C T) (w : W)
    (tr : List (Call X C T TS F)) :
    (a.recording.GetJobLogs OUTPUT_STREAM_ALL request (recordingStream F TS responseServer)
      (w, tr)).1 = (a.GetJobLogs OUTPUT_STREAM_ALL request responseServer w).1 ∧
    (a.recording.GetJobLogs OUTPUT_STREAM_ALL request (recordingStream F TS responseServer)
      (w, tr)).2.1 = (a.GetJobLogs OUTPUT_STREAM_ALL request responseServer w).2 := by
  rcases hf : a.persistAPIClient.GetJobLogs request.Job w with ⟨r, w1⟩
  cases r with
  | error e => simp [apiServer.GetJobLogs, apiServer.recording, hf]
  | ok logs =>
    simp only [apiServer.GetJobLogs, apiServer.recording, hf]
    exact getJobLogsLoop_recording_result OUTPUT_STREAM_ALL request responseServer _ w1 _

/-- C9: for every job and every list of log entries returned by the persistence
fetch, when every `Send` of the call succeeds, `GetJobLogs` returns success and
the calls it makes are the fetch followed by one `Send` per payload of: every
entry, in stored order, when the filter is `OUTPUT_STREAM_ALL`; otherwise exactly
the entries whose output stream equals the filter, in stored order (no `Send`
when none matches). -/
theorem GetJobLogs_sends [DecidableEq S] (a : apiServer W X C T TS ST S F)
    (OUTPUT_STREAM_ALL : S) (request : pps.GetJobLogsRequest S)
    (responseServer : pps.JobAPI_GetJobLogsServer W X C T) (w w1 : W)
    (persistJobLogs : persist.JobLogs S)
    (hfetch : a.persistAPIClient.GetJobLogs request.Job w = (Except.ok persistJobLogs, w1))
    (hsend : ∀ (value : google_protobuf.BytesValue) (err : Option (Err X C T)),
      Call.Send value err ∈
        (a.recording.GetJobLogs OUTPUT_STREAM_ALL request (recordingStream F TS responseServer)
          (w, [])).2.2 → err = none) :
    (a.GetJobLogs OUTPUT_STREAM_ALL request responseServer w).1 = none ∧
    (a.recording.GetJobLogs OUTPUT_STREAM_ALL request (recordingStream F TS responseServer)
      (w, [])).1 = none ∧
    (a.recording.GetJobLogs OUTPUT_STREAM_ALL request (recordingStream F TS responseServer)
      (w, [])).2.2 =
      Call.GetJobLogs request.Job ::
        ((if request.OutputStream = OUTPUT_STREAM_ALL then persistJobLogs.JobLog
          else persistJobLogs.JobLog.filter
            (fun x => decide (x.OutputStream = request.OutputStream))).map
          (fun x => Call.Send { Value := x.Value } none)) := by
  rw [← (GetJobLogs_recording_result a OUTPUT_STREAM_ALL request responseServer w
    ([] : List (Call X C T TS F))).1]
  obtain ⟨new, h1, h2⟩ := getJobLogsLoop_recording OUTPUT_STREAM_ALL request responseServer
    persistJobLogs.JobLog w1 ([Call.GetJobLogs request.Job] : List (Call X C T TS F))
  have hrun : a.recording.GetJobLogs OUTPUT_STREAM_ALL request
      (recordingStream F TS responseServer) (w, []) =
      getJobLogsLoop OUTPUT_STREAM_ALL request (recordingStream F TS responseServer)
        persistJobLogs.JobLog (w1, [Call.GetJobLogs request.Job]) := by
    simp [apiServer.GetJobLogs, apiServer.recording, hfetch]
  rw [hrun] at hsend ⊢
  rw [h1] at hsend ⊢
  obtain ⟨h3, h4⟩ := h2 (fun value err hm => hsend value err (List.mem_append_right _ hm))
  exact ⟨h3, h3, by rw [h4]; rfl⟩

/-- Witness of C9: three stored entries tagged 1, 2, 1, the filter 1 (with
`OUTPUT_STREAM_ALL` being 3) and a stream whose sends succeed: the payloads of
the first and third entries are sent, in that order. -/
theorem GetJobLogs_sends_witness :
    (demoServer none none noStatuses noOutput demoLogs).persistAPIClient.GetJobLogs
        (some { Id := "j1" }) [] =
      (Except.ok
        { JobLog :=
            [{ OutputStream := 1, Value := [97] }, { OutputStream := 2, Value := [98] },
              { OutputStream := 1, Value := [99] }] }, []) ∧
    ((demoServer none none noStatuses noOutput demoLogs).GetJobLogs 3
        { Job := some { Id := "j1" }, OutputStream := 1 } demoStream []).1 = none ∧
    ((demoServer none none noStatuses noOutput demoLogs).recording.GetJobLogs 3
        { Job := some { Id := "j1" }, OutputStream := 1 }
        (recordingStream Unit Nat demoStream) ([], [])).1 = none ∧
    ((demoServer none none noStatuses noOutput demoLogs).recording.GetJobLogs 3
        { Job := some { Id := "j1" }, OutputStream := 1 }
        (recordingStream Unit Nat demoStream) ([], [])).2.2 =
      [Call.GetJobLogs (some { Id := "j1" }), Call.Send { Value := [97] } none,
        Call.Send { Value := [99] } none] :=
  ⟨rfl,
    GetJobLogs_sends (demoServer none none noStatuses noOutput demoLogs) 3
      { Job := some { Id := "j1" }, OutputStream := 1 } demoStream [] []
      { JobLog :=
          [{ OutputStream := 1, Value := [97] }, { OutputStream := 2, Value := [98] },
            { OutputStream := 1, Value := [99] }] }
      rfl
      (by
        intro value err h
        change Call.Send value err ∈
          [Call.GetJobLogs (some { Id := "j1" }), Call.Send { Value := [97] } none,
            Call.Send { Value := [99] } none] at h
        simp at h
        rcases h with ⟨_, h⟩ | ⟨_, h⟩ <;> exact h)⟩

end jobserver
